import Mathlib

/-!
Verification development for `langchain/utilities/rconsole.py` (`RREPL`).

Shallow embedding of the module. The driven R interpreter is external to the
module, so it is modelled at the interface the code uses: a global environment
(association list of bindings), a stack of output diversions (`sink(file)`
pushes, `sink()` pops; on an empty stack R signals the error
"no sink to remove"), a message diversion (`sink(file, type = "message")`
sets it; `sink(type = "message")` resets it to stderr), and a file system
(association list of file name to contents).

A command string is abstracted by what evaluating it does: whether the string
reaches R evaluation at all (a syntax error makes the whole
`robjects.r('tryCatch(...)')` call raise a Python-level `RRuntimeError`), and
otherwise the text it prints, the text it writes to the message stream, an
optional R-level error, the mutated global environment, and its value.

Python-level effects are explicit: the queue is the list of deposited dicts,
an escaped exception is an `Option String`, and the host process state carries
the interpreter state, the host's own stdout, and the `lru_cache` state of
`warn_once` together with the logger's emissions.
-/

namespace RConsole

/-- R values, as far as the claims need them. -/
inductive RValue where
  | RNull
  | RInt (n : Int)
  | RStr (s : String)
deriving DecidableEq, Repr

/-- An R environment: bindings from names to values. -/
abbrev REnv := List (String × RValue)

/-- Bind a name in an environment, replacing an existing binding. -/
def envSet (env : REnv) (k : String) (v : RValue) : REnv :=
  match env with
  | [] => [(k, v)]
  | (k', v') :: rest => if k' = k then (k, v) :: rest else (k', v') :: envSet rest k v

/-- Look a name up in an environment. -/
def envGet (env : REnv) (k : String) : Option RValue :=
  match env with
  | [] => none
  | (k', v') :: rest => if k' = k then some v' else envGet rest k

/-- A file system: file names mapped to their contents. -/
abbrev FileSys := List (String × String)

/-- Write a file, truncating any previous contents. -/
def fsSet (fs : FileSys) (n c : String) : FileSys :=
  match fs with
  | [] => [(n, c)]
  | (n', c') :: rest => if n' = n then (n, c) :: rest else (n', c') :: fsSet rest n c

/-- Read a file's contents (an absent file reads as empty). -/
def fsGet (fs : FileSys) (n : String) : String :=
  match fs with
  | [] => ""
  | (n', c') :: rest => if n' = n then c' else fsGet rest n

/-- Append to a file. -/
def fsApp (fs : FileSys) (n s : String) : FileSys := fsSet fs n (fsGet fs n ++ s)

/-- Delete a file. -/
def fsDel (fs : FileSys) (n : String) : FileSys :=
  match fs with
  | [] => []
  | (n', c') :: rest => if n' = n then rest else (n', c') :: fsDel rest n

/-- What evaluating a command does, given the global environment it is
evaluated in: text printed to the output stream, text written to the message
stream, an optional R-level error (caught by `tryCatch`), the resulting global
environment (side effects up to the error point included), and the value. -/
structure CmdResult where
  prints : String
  messages : String
  rError : Option String
  newEnv : REnv
  value : RValue

/-- A command string, abstracted by its behaviour: `parses = false` means the
`robjects.r('tryCatch(...)')` call itself raises at the binding layer (e.g. an
R syntax error, which is a parse-time failure `tryCatch` cannot catch);
otherwise `run` describes the evaluation. -/
structure Cmd where
  parses : Bool
  run : REnv → CmdResult

/-- The state of the embedded R interpreter inside one OS process. -/
structure RState where
  globalEnv : REnv
  outSinks : List String
  msgSink : Option String
  files : FileSys
deriving DecidableEq

/-- The dict deposited on the multiprocessing queue: field `none` means the
key is absent from the dict. The success path puts all three keys; the
`except` path puts only the `err` key. -/
structure OutDict where
  res : Option RValue
  output : Option String
  err : Option String
deriving DecidableEq, Repr

/-- The observable result of one call to `RREPL.worker`: the final interpreter
state of the process that ran it, the dicts deposited on the queue in order,
and the exception that escaped the worker, if any. -/
structure WorkerResult where
  state : RState
  deposits : List OutDict
  escaped : Option String
deriving DecidableEq

/-- Per-call data the OS supplies to the worker: the names `tempfile` picks
for the two capture files, and whether creating them raises (an `OSError`
from `tempfile.NamedTemporaryFile`; note that in the source this statement
stands OUTSIDE the `try` block). -/
structure WConfig where
  outName : String
  errName : String
  tempFail : Bool

/-- Message of the exception escaping when `tempfile.NamedTemporaryFile`
fails. -/
def tempfileErrMsg : String := "OSError: could not create temporary file"

/-- Message of the `RRuntimeError` raised when the command string does not
parse, so that `robjects.r` fails before `tryCatch` can run. -/
def parseErrMsg : String := "RRuntimeError: unexpected symbol in command"

/-- Message of the `RRuntimeError` raised by R's `sink()` when the output
diversion stack is empty ("no sink to remove"). -/
def noSinkMsg : String := "RRuntimeError: Error in sink() : no sink to remove"

/-- The `except Exception as e` arm of the worker: deposit a dict holding only
the `err` key, then let the `with` block delete the temporary files. -/
def finishExcept (cfg : WConfig) (st : RState) (e : String) : WorkerResult :=
  { state := { st with files := fsDel (fsDel st.files cfg.outName) cfg.errName },
    deposits := [{ res := none, output := none, err := some e }],
    escaped := none }

/-- The tail of the worker's `try` block after `tryCatch` has produced `res`:
`robjects.r('sink(type = "message")')` resets the message diversion, then
`robjects.r('sink()')` pops the output diversion stack — raising
"no sink to remove" when that stack is empty (which is exactly the state the
error handler leaves behind when the initial stack was empty) — then both
temporary files are read back and the dict is deposited, and the `with` block
deletes the files. -/
def afterTryCatch (cfg : WConfig) (st : RState) (res : RValue) : WorkerResult :=
  match st.outSinks with
  | [] => finishExcept cfg { st with msgSink := none } noSinkMsg
  | _ :: rest =>
      let st2 : RState := { st with msgSink := none, outSinks := rest }
      { state := { st2 with files := fsDel (fsDel st2.files cfg.outName) cfg.errName },
        deposits := [{ res := some res,
                       output := some (fsGet st2.files cfg.outName),
                       err := some (fsGet st2.files cfg.errName) }],
        escaped := none }

/-- `RREPL.worker(command, environment, queue)`. Mirrors the source: create
the two temporary files (outside the `try`: a failure here escapes); inside
the `try`, push the output diversion onto `outName`, divert the message
stream to `errName`, evaluate `tryCatch(command, error = handler)` — on an
R-level error the handler resets the message diversion, pops the output
diversion, truncate-writes a description of the error (one line, so a
trailing newline) to the error file, and the `tryCatch` value is the
handler's value, R `NULL` — then run the post-`tryCatch` tail; any exception
inside the `try` lands in `finishExcept`. The `environment` parameter is
accepted but the body never uses it: evaluation happens in R's global
environment. -/
def worker (command : Cmd) (environment : Option REnv) (st : RState) (cfg : WConfig) :
    WorkerResult :=
  if cfg.tempFail then
    { state := st, deposits := [], escaped := some tempfileErrMsg }
  else
    let st3 : RState :=
      { st with files := fsSet (fsSet st.files cfg.outName "") cfg.errName "",
                outSinks := cfg.outName :: st.outSinks,
                msgSink := some cfg.errName }
    if command.parses then
      let r := command.run st3.globalEnv
      let st4 : RState :=
        { st3 with globalEnv := r.newEnv,
                   files := fsApp (fsApp st3.files cfg.outName r.prints) cfg.errName r.messages }
      match r.rError with
      | none => afterTryCatch cfg st4 r.value
      | some msg =>
          let st5 : RState :=
            { st4 with msgSink := none, outSinks := st4.outSinks.tail,
                       files := fsSet st4.files cfg.errName (msg ++ "\n") }
          afterTryCatch cfg st5 RValue.RNull
    else
      finishExcept cfg st3 parseErrMsg

/-- The text `warn_once` logs. -/
def warnMsg : String := "R REPL can execute arbitrary code. Use with caution."

/-- The state of the host Python process: its R interpreter state, the host's
own standard output, the `functools.lru_cache` state of `warn_once` (has the
zero-argument call been cached), and the logger's emissions in order. -/
structure ProcState where
  rstate : RState
  hostStdout : String
  warned : Bool
  log : List String
deriving DecidableEq

/-- `warn_once()`: under `lru_cache`, the first call runs the body (one call
to `logger.warning`) and caches; later calls return the cached `None` with no
effect. -/
def warn_once (s : ProcState) : ProcState :=
  if s.warned then s else { s with warned := true, log := s.log ++ [warnMsg] }

/-- A Python value as returned by `run`: the source returns either the queue's
dict or the plain string literal. -/
inductive PyValue where
  | pyStr (s : String)
  | pyDict (d : OutDict)
deriving DecidableEq

/-- How one call to `run` ends for the caller: it returns a value, it lets an
exception propagate, or it blocks forever (the unbounded `queue.get()` on an
empty queue whose producer is gone). -/
inductive RunResult where
  | ret (v : PyValue)
  | raises (e : String)
  | hangs
deriving DecidableEq

/-- What the supervisor observes of the forked child when a timeout is used:
either `p.join(timeout)` returned with the child still alive, or the child
exited (normally or by crashing at an arbitrary point) having deposited the
given dicts on the queue. When the child runs the worker to completion, the
deposits are `(worker ...).deposits`. -/
inductive Fate where
  | alive
  | exited (deps : List OutDict)

/-- One `RREPL` instance: its `environment` field. -/
structure RREPLInst where
  environment : Option REnv

/-- `RREPL.run(command, timeout)`. Mirrors the source: call `warn_once()`;
with a timeout, start the worker in a separate process (a fork: the child
works on a copy of the parent's interpreter state, so the parent's `rstate`
is untouched), `p.join(timeout)`, and if the child is still alive terminate
it and return the plain string "Execution timed out" — otherwise fall through
to `queue.get()`, which blocks forever when the child exited without
depositing; with no timeout, call the worker inline on the caller's own
interpreter state (an escaping exception propagates to the caller) and then
`queue.get()`. `runInline` is that inline branch: the caller's interpreter
state is the worker's final state, and the call then returns the single
queued dict, raises the escaped exception, or blocks on the empty queue. -/
def runInline (inst : RREPLInst) (command : Cmd) (cfg : WConfig) (s1 : ProcState) :
    ProcState × RunResult :=
  ({ s1 with rstate := (worker command inst.environment s1.rstate cfg).state },
   match (worker command inst.environment s1.rstate cfg).escaped with
   | some e => RunResult.raises e
   | none =>
     match (worker command inst.environment s1.rstate cfg).deposits with
     | [] => RunResult.hangs
     | d :: _ => RunResult.ret (PyValue.pyDict d))

def run (inst : RREPLInst) (command : Cmd) (timeout : Option Nat) (cfg : WConfig)
    (fate : Fate) (s : ProcState) : ProcState × RunResult :=
  match timeout with
  | some _ =>
    match fate with
    | .alive => (warn_once s, .ret (.pyStr "Execution timed out"))
    | .exited [] => (warn_once s, .hangs)
    | .exited (d :: _) => (warn_once s, .ret (.pyDict d))
  | none => runInline inst command cfg (warn_once s)

/-- A Python object, as far as the `environment` field default needs: rpy2
exposes the ambient R global environment as an environment-handle object, and
only function objects are callable. -/
inductive PyObj where
  | envHandle (e : REnv)
  | func (f : Unit → PyObj)

/-- Message of the `TypeError` raised when a non-function object is called. -/
def notCallableMsg : String := "TypeError: rpy2 environment object is not callable"

/-- Calling a Python object: function objects run; calling an rpy2
environment handle raises `TypeError`. -/
def pyCall (o : PyObj) : Except String PyObj :=
  match o with
  | .func f => .ok (f ())
  | .envHandle _ => .error notCallableMsg

/-- `robjects.globalenv`: the handle to the ambient R global environment. -/
def globalenvObj (ambient : REnv) : PyObj := .envHandle ambient

/-- Pydantic initialization of the `environment` field, per the declaration
`environment: Optional[Dict] = Field(default_factory=robjects.globalenv)`: a
supplied value is used as is; when the field is omitted, pydantic invokes the
default factory — that is, it calls the object `robjects.globalenv` itself. -/
def initEnvironmentField (ambient : REnv) (supplied : Option PyObj) :
    Except String PyObj :=
  match supplied with
  | some v => .ok v
  | none => pyCall (globalenvObj ambient)

/-- One call in a sequence of `run` calls: which instance, which command,
which timeout, and the per-call OS data. -/
structure CallSpec where
  inst : RREPLInst
  cmd : Cmd
  timeout : Option Nat
  cfg : WConfig
  fate : Fate

/-- Run a sequence of calls, threading the host process state. -/
def runSeq (s : ProcState) (calls : List CallSpec) : ProcState :=
  match calls with
  | [] => s
  | c :: rest => runSeq (run c.inst c.cmd c.timeout c.cfg c.fate s).1 rest

/-- The `res` field of the dict a `run` call returned, when it returned one. -/
def resultResField : RunResult → Option RValue
  | .ret (.pyDict d) => d.res
  | _ => none

/-- Concrete per-call OS data: two distinct temporary file names, creation
succeeds. -/
def cfg0 : WConfig := { outName := "/tmp/rout", errName := "/tmp/rerr", tempFail := false }

/-- Concrete per-call OS data on which `tempfile.NamedTemporaryFile` fails. -/
def cfgTempFail : WConfig := { cfg0 with tempFail := true }

/-- A fresh ambient interpreter state: empty global environment, no
diversion of either stream, empty file system. -/
def st0 : RState := { globalEnv := [], outSinks := [], msgSink := none, files := [] }

/-- A fresh host process: fresh interpreter, nothing on the host's stdout,
`warn_once` not yet called, empty log. -/
def ps0 : ProcState := { rstate := st0, hostStdout := "", warned := false, log := [] }

/-- An instance whose `environment` field is `None`. -/
def inst0 : RREPLInst := { environment := none }

/-- A command behaving like `cat("hi\n")`: prints one line, no error. -/
def cmdPrintHi : Cmd :=
  { parses := true,
    run := fun env =>
      { prints := "hi\n", messages := "", rError := none, newEnv := env,
        value := RValue.RStr "hi" } }

/-- A command behaving like `x <- 1`: binds `x` in the global environment. -/
def cmdAssignX : Cmd :=
  { parses := true,
    run := fun env =>
      { prints := "", messages := "", rError := none,
        newEnv := envSet env "x" (RValue.RInt 1), value := RValue.RInt 1 } }

/-- A command behaving like `x`: its value is the current binding of `x`, or
`NULL` when `x` is unbound. -/
def cmdReadX : Cmd :=
  { parses := true,
    run := fun env =>
      { prints := "", messages := "", rError := none, newEnv := env,
        value := (envGet env "x").getD RValue.RNull } }

/-- A command behaving like `cat("hi\n"); stop("boom")`: prints a line and
then raises an R-level error. -/
def cmdPrintBoom : Cmd :=
  { parses := true,
    run := fun env =>
      { prints := "hi\n", messages := "", rError := some "boom", newEnv := env,
        value := RValue.RNull } }

/-- A command string with a syntax error: the `robjects.r` call raises before
`tryCatch` can run. -/
def cmdNoParse : Cmd :=
  { parses := false,
    run := fun env =>
      { prints := "", messages := "", rError := none, newEnv := env,
        value := RValue.RNull } }

theorem fsGet_fsSet_same (fs : FileSys) (n c : String) : fsGet (fsSet fs n c) n = c := by
  induction fs with
  | nil => simp [fsSet, fsGet]
  | cons p rest ih =>
    obtain ⟨n', c'⟩ := p
    by_cases h : n' = n
    · simp [fsSet, fsGet, h]
    · simp [fsSet, fsGet, h, ih]

theorem fsGet_fsSet_ne (fs : FileSys) (n c m : String) (h : m ≠ n) :
    fsGet (fsSet fs n c) m = fsGet fs m := by
  induction fs with
  | nil => simp [fsSet, fsGet, Ne.symm h]
  | cons p rest ih =>
    obtain ⟨n', c'⟩ := p
    by_cases h1 : n' = n
    · subst h1
      simp [fsSet, fsGet, Ne.symm h]
    · simp [fsSet, fsGet, h1, ih]

theorem empty_append_str (s : String) : "" ++ s = s := by
  cases s
  rfl

theorem warn_once_rstate (s : ProcState) : (warn_once s).rstate = s.rstate := by
  unfold warn_once
  split <;> rfl

theorem finishExcept_shape (cfg : WConfig) (st : RState) (e : String) :
    (finishExcept cfg st e).escaped = none ∧
    (finishExcept cfg st e).deposits.length = 1 ∧
    ∀ d ∈ (finishExcept cfg st e).deposits, d.err.isSome = true := by
  refine ⟨rfl, rfl, ?_⟩
  intro d hd
  simp only [finishExcept, List.mem_singleton] at hd
  subst hd
  rfl

theorem afterTryCatch_shape (cfg : WConfig) (st : RState) (res : RValue) :
    (afterTryCatch cfg st res).escaped = none ∧
    (afterTryCatch cfg st res).deposits.length = 1 ∧
    ∀ d ∈ (afterTryCatch cfg st res).deposits, d.err.isSome = true := by
  unfold afterTryCatch
  cases h : st.outSinks with
  | nil => exact finishExcept_shape _ _ _
  | cons a rest =>
    refine ⟨rfl, rfl, ?_⟩
    intro d hd
    simp only [List.mem_singleton] at hd
    subst hd
    rfl

theorem worker_success (c : Cmd) (e : Option REnv) (st : RState) (cfg : WConfig)
    (htf : cfg.tempFail = false) (hne : cfg.outName ≠ cfg.errName)
    (hp : c.parses = true) (herr : (c.run st.globalEnv).rError = none) :
    (worker c e st cfg).deposits =
      [{ res := some (c.run st.globalEnv).value,
         output := some (c.run st.globalEnv).prints,
         err := some (c.run st.globalEnv).messages }] ∧
    (worker c e st cfg).escaped = none := by
  have h1 : ∀ fs cc, fsGet (fsSet fs cfg.errName cc) cfg.outName = fsGet fs cfg.outName :=
    fun fs cc => fsGet_fsSet_ne fs _ cc _ hne
  have h2 : ∀ fs cc, fsGet (fsSet fs cfg.outName cc) cfg.errName = fsGet fs cfg.errName :=
    fun fs cc => fsGet_fsSet_ne fs _ cc _ (Ne.symm hne)
  unfold worker
  simp only [htf, Bool.false_eq_true, if_false, hp, if_true]
  unfold afterTryCatch
  simp only [herr, fsApp, h1, h2, fsGet_fsSet_same, empty_append_str]
  exact ⟨trivial, trivial⟩

theorem worker_rerror (c : Cmd) (e : Option REnv) (st : RState) (cfg : WConfig)
    (msg : String) (htf : cfg.tempFail = false) (hp : c.parses = true)
    (herr : (c.run st.globalEnv).rError = some msg) (hsk : st.outSinks = []) :
    (worker c e st cfg).deposits =
      [{ res := none, output := none, err := some noSinkMsg }] ∧
    (worker c e st cfg).escaped = none := by
  unfold worker
  simp only [htf, Bool.false_eq_true, if_false, hp, if_true, herr, List.tail_cons]
  rw [hsk]
  exact ⟨rfl, rfl⟩

theorem worker_state_env (c : Cmd) (e : Option REnv) (st : RState) (cfg : WConfig)
    (htf : cfg.tempFail = false) (hp : c.parses = true) (hsk : st.outSinks = []) :
    (worker c e st cfg).state.globalEnv = (c.run st.globalEnv).newEnv ∧
    (worker c e st cfg).state.outSinks = [] ∧
    (worker c e st cfg).state.msgSink = none := by
  unfold worker
  simp only [htf, Bool.false_eq_true, if_false, hp, if_true]
  cases herr : (c.run st.globalEnv).rError with
  | none =>
    simp only [herr]
    unfold afterTryCatch
    exact ⟨rfl, hsk, rfl⟩
  | some msg =>
    simp only [herr, List.tail_cons]
    rw [hsk]
    exact ⟨rfl, rfl, rfl⟩

theorem run_none_fst (inst : RREPLInst) (c : Cmd) (cfg : WConfig) (f : Fate)
    (s : ProcState) :
    (run inst c none cfg f s).1 =
      { warn_once s with rstate := (worker c inst.environment (warn_once s).rstate cfg).state } := by
  rfl

theorem run_none_ret (inst : RREPLInst) (c : Cmd) (cfg : WConfig) (f : Fate)
    (s : ProcState) (d : OutDict)
    (hesc : (worker c inst.environment (warn_once s).rstate cfg).escaped = none)
    (hdep : (worker c inst.environment (warn_once s).rstate cfg).deposits = [d]) :
    (run inst c none cfg f s).2 = RunResult.ret (PyValue.pyDict d) := by
  unfold run runInline
  rw [hesc, hdep]

theorem run_fst_fields (inst : RREPLInst) (c : Cmd) (t : Option Nat) (cfg : WConfig)
    (f : Fate) (s : ProcState) :
    ((run inst c t cfg f s).1).log = (warn_once s).log ∧
    ((run inst c t cfg f s).1).warned = (warn_once s).warned := by
  cases t with
  | none => exact ⟨rfl, rfl⟩
  | some n =>
    cases f with
    | alive => exact ⟨rfl, rfl⟩
    | exited deps =>
      cases deps with
      | nil => exact ⟨rfl, rfl⟩
      | cons d rest => exact ⟨rfl, rfl⟩

theorem runSeq_log_stable (calls : List CallSpec) (s : ProcState)
    (hw : s.warned = true) :
    (runSeq s calls).log = s.log := by
  induction calls generalizing s with
  | nil => rfl
  | cons c rest ih =>
    have h := run_fst_fields c.inst c.cmd c.timeout c.cfg c.fate s
    have hw1 : warn_once s = s := by simp [warn_once, hw]
    rw [runSeq, ih _ (by rw [h.2, hw1, hw]), h.1, hw1]

/-- C1 counterexample: the claim says the worker never lets an exception
escape and always deposits one outcome, for every failure path. But the
`tempfile.NamedTemporaryFile` statement stands outside the `try` block: when
creating the temporary capture files fails, the `OSError` escapes the worker
and nothing at all is deposited on the queue. -/
theorem worker_escape_on_temp_failure :
    (worker cmdPrintHi none st0 cfgTempFail).deposits = [] ∧
    (worker cmdPrintHi none st0 cfgTempFail).escaped = some tempfileErrMsg :=
  ⟨rfl, rfl⟩

/-- C1 (amended): provided the temporary capture files can be created (the
one statement outside the `try`), the worker deposits exactly one outcome on
the queue, never lets an exception escape, and every deposited outcome has
its `err` field set. -/
theorem worker_single_outcome (c : Cmd) (e : Option REnv) (st : RState) (cfg : WConfig)
    (htf : cfg.tempFail = false) :
    (worker c e st cfg).escaped = none ∧
    (worker c e st cfg).deposits.length = 1 ∧
    ∀ d ∈ (worker c e st cfg).deposits, d.err.isSome = true := by
  unfold worker
  simp only [htf, Bool.false_eq_true, if_false]
  cases hp : c.parses with
  | false =>
    simp only [hp, Bool.false_eq_true, if_false]
    exact finishExcept_shape _ _ _
  | true =>
    simp only [hp, if_true]
    split
    · exact afterTryCatch_shape _ _ _
    · exact afterTryCatch_shape _ _ _

/-- C1 witness: the amended theorem applied at a concrete call. -/
theorem worker_single_outcome_w :
    cfg0.tempFail = false ∧
    ((worker cmdPrintHi none st0 cfg0).escaped = none ∧
     (worker cmdPrintHi none st0 cfg0).deposits.length = 1 ∧
     ∀ d ∈ (worker cmdPrintHi none st0 cfg0).deposits, d.err.isSome = true) :=
  ⟨rfl, worker_single_outcome cmdPrintHi none st0 cfg0 rfl⟩

/-- C2 counterexample: the claim says the timeout indicator is a tagged
variant distinguishable from an Outcome, not an overloaded string. But on
deadline expiry `run` returns the plain Python string "Execution timed out";
the caller can tell it apart only by its runtime type and contents. -/
theorem run_timeout_is_plain_string :
    (run inst0 cmdPrintHi (some 1) cfg0 Fate.alive ps0).2 =
      RunResult.ret (PyValue.pyStr "Execution timed out") := rfl

/-- C2 (amended): whenever a call to `run` returns at all, the returned value
is either the outcome dict taken from the queue or the overloaded plain
string "Execution timed out" — the two are distinguishable by runtime type,
but the timeout indicator is a string, not a tagged variant. -/
theorem run_return_shape (inst : RREPLInst) (c : Cmd) (t : Option Nat) (cfg : WConfig)
    (f : Fate) (s : ProcState) (v : PyValue)
    (h : (run inst c t cfg f s).2 = RunResult.ret v) :
    v = PyValue.pyStr "Execution timed out" ∨ ∃ d, v = PyValue.pyDict d := by
  cases t with
  | some n =>
    cases f with
    | alive =>
      simp only [run] at h
      injection h with h1
      exact Or.inl h1.symm
    | exited deps =>
      cases deps with
      | nil =>
        simp only [run] at h
        exact RunResult.noConfusion h
      | cons d rest =>
        simp only [run] at h
        injection h with h1
        exact Or.inr ⟨d, h1.symm⟩
  | none =>
    simp only [run, runInline] at h
    cases hesc : (worker c inst.environment (warn_once s).rstate cfg).escaped with
    | some e =>
      rw [hesc] at h
      exact RunResult.noConfusion h
    | none =>
      rw [hesc] at h
      cases hdep : (worker c inst.environment (warn_once s).rstate cfg).deposits with
      | nil =>
        rw [hdep] at h
        exact RunResult.noConfusion h
      | cons d rest =>
        rw [hdep] at h
        injection h with h1
        exact Or.inr ⟨d, h1.symm⟩

/-- C2 witness: the amended theorem applied at a concrete inline call that
returns the queue's dict. -/
theorem run_return_shape_w :
    (run inst0 cmdPrintHi none cfg0 Fate.alive ps0).2 =
      RunResult.ret (PyValue.pyDict
        { res := some (RValue.RStr "hi"), output := some "hi\n", err := some "" }) ∧
    (PyValue.pyDict { res := some (RValue.RStr "hi"), output := some "hi\n", err := some "" }
        = PyValue.pyStr "Execution timed out" ∨
      ∃ d, PyValue.pyDict { res := some (RValue.RStr "hi"), output := some "hi\n", err := some "" }
        = PyValue.pyDict d) :=
  ⟨by decide,
   run_return_shape inst0 cmdPrintHi none cfg0 Fate.alive ps0
     (PyValue.pyDict { res := some (RValue.RStr "hi"), output := some "hi\n", err := some "" })
     (by decide)⟩

/-- C3 counterexample: the claim covers every command that completes within
the allotted time, including one that raises an R-level error after printing.
For `cat("hi\n"); stop("boom")` the deposited outcome comes from the `except`
arm (the worker's own redundant `sink()` call fails after the error handler
already removed the diversions): its `output` field is absent, not the
printed text "hi\n". -/
theorem run_error_output_not_printed :
    (run inst0 cmdPrintBoom none cfg0 Fate.alive ps0).2 =
      RunResult.ret (PyValue.pyDict { res := none, output := none, err := some noSinkMsg }) ∧
    (none : Option String) ≠ some "hi\n" :=
  ⟨by decide, by decide⟩

/-- C3 (amended): for every command that parses and evaluates without an
R-level error, `run` returns exactly one outcome whose `output` field is,
byte for byte, exactly the text the command printed — and the result is the
same whatever the host process has written to its own standard output. -/
theorem run_output_byte_exact (inst : RREPLInst) (c : Cmd) (cfg : WConfig) (f : Fate)
    (s : ProcState) (hostText : String)
    (htf : cfg.tempFail = false) (hne : cfg.outName ≠ cfg.errName)
    (hp : c.parses = true) (herr : (c.run s.rstate.globalEnv).rError = none) :
    (run inst c none cfg f { s with hostStdout := hostText }).2 =
      RunResult.ret (PyValue.pyDict
        { res := some (c.run s.rstate.globalEnv).value,
          output := some (c.run s.rstate.globalEnv).prints,
          err := some (c.run s.rstate.globalEnv).messages }) := by
  have hst : (warn_once { s with hostStdout := hostText }).rstate = s.rstate := by
    rw [warn_once_rstate]
  have hw := worker_success c inst.environment
      (warn_once { s with hostStdout := hostText }).rstate cfg htf hne hp
      (by rw [hst]; exact herr)
  have hr := run_none_ret inst c cfg f { s with hostStdout := hostText } _ hw.2 hw.1
  rw [hst] at hr
  exact hr

/-- C3 witness: the amended theorem applied to `cat("hi\n")` with unrelated
text on the host's own stdout. -/
theorem run_output_byte_exact_w :
    cfg0.tempFail = false ∧ cfg0.outName ≠ cfg0.errName ∧
    (run inst0 cmdPrintHi none cfg0 Fate.alive { ps0 with hostStdout := "host text" }).2 =
      RunResult.ret (PyValue.pyDict
        { res := some (RValue.RStr "hi"), output := some "hi\n", err := some "" }) :=
  ⟨rfl, by decide,
   run_output_byte_exact inst0 cmdPrintHi cfg0 Fate.alive ps0 "host text" rfl (by decide) rfl rfl⟩

/-- C4: the claim says the supervisor's wait is bounded by the timeout, so a
child that dies without depositing degrades to the timed-out report. The code
does not do this: `p.join(timeout)` returns early, `p.is_alive()` is false,
and control falls through to the unbounded `queue.get()` on an empty queue
whose only producer is dead — `run` blocks forever instead of returning. -/
theorem run_hangs_when_child_dies_before_enqueue :
    (run inst0 cmdPrintHi (some 1) cfg0 (Fate.exited []) ps0).2 = RunResult.hangs := rfl

/-- C5: for every command that raises an interpreter-level error (under the
ambient undiverted interpreter state and with the capture files creatable),
the returned outcome has a non-empty `error` field and its `value` field is
absent. (The error text the caller sees is the binding-layer failure of the
worker's redundant stream-restoring calls, not the command's own message, but
the claim's property holds.) -/
theorem run_interpreter_error_outcome (inst : RREPLInst) (c : Cmd) (cfg : WConfig)
    (f : Fate) (s : ProcState) (msg : String)
    (htf : cfg.tempFail = false) (hp : c.parses = true)
    (herr : (c.run s.rstate.globalEnv).rError = some msg)
    (hsk : s.rstate.outSinks = []) :
    (run inst c none cfg f s).2 =
      RunResult.ret (PyValue.pyDict { res := none, output := none, err := some noSinkMsg }) ∧
    noSinkMsg ≠ "" := by
  have hw := worker_rerror c inst.environment (warn_once s).rstate cfg msg htf hp
      (by rw [warn_once_rstate]; exact herr) (by rw [warn_once_rstate]; exact hsk)
  exact ⟨run_none_ret inst c cfg f s _ hw.2 hw.1, by decide⟩

/-- C5 witness: the theorem applied to `cat("hi\n"); stop("boom")`. -/
theorem run_interpreter_error_outcome_w :
    (run inst0 cmdPrintBoom none cfg0 Fate.alive ps0).2 =
      RunResult.ret (PyValue.pyDict { res := none, output := none, err := some noSinkMsg }) ∧
    noSinkMsg ≠ "" :=
  run_interpreter_error_outcome inst0 cmdPrintBoom cfg0 Fate.alive ps0 "boom" rfl rfl rfl rfl

/-- C6 counterexample: the claim says both channels are restored
unconditionally, including when the evaluation raises. But when the command
string fails to parse, `robjects.r` raises before `tryCatch` runs, the
`except` arm deposits an error dict without any restoring call, and the
worker returns with the output diversion still pushed and the message stream
still diverted (to files the `with` block has just deleted). -/
theorem worker_leaves_streams_redirected :
    (worker cmdNoParse none st0 cfg0).state.outSinks ≠ st0.outSinks ∧
    (worker cmdNoParse none st0 cfg0).state.msgSink ≠ st0.msgSink :=
  ⟨by decide, by decide⟩

/-- C6 (amended): starting from the ambient routing (no output diversion, no
message diversion), both channels are restored to their prior routing
whenever the command string reaches R evaluation — both on normal completion
and on a handler-caught R error — but not when evaluation raises at the
binding layer. -/
theorem worker_restores_streams (c : Cmd) (e : Option REnv) (st : RState) (cfg : WConfig)
    (htf : cfg.tempFail = false) (hp : c.parses = true)
    (hsk : st.outSinks = []) (hmk : st.msgSink = none) :
    (worker c e st cfg).state.outSinks = st.outSinks ∧
    (worker c e st cfg).state.msgSink = st.msgSink := by
  have h := worker_state_env c e st cfg htf hp hsk
  exact ⟨h.2.1.trans hsk.symm, h.2.2.trans hmk.symm⟩

/-- C6 witness: the amended theorem applied at a concrete successful call. -/
theorem worker_restores_streams_w :
    cfg0.tempFail = false ∧
    ((worker cmdPrintHi none st0 cfg0).state.outSinks = st0.outSinks ∧
     (worker cmdPrintHi none st0 cfg0).state.msgSink = st0.msgSink) :=
  ⟨rfl, worker_restores_streams cmdPrintHi none st0 cfg0 rfl rfl rfl rfl⟩

/-- C7 counterexample: the claim says the second command observes the side
effects of the first in both the inline and the timeout path. In the timeout
path the worker runs in a forked child, which mutates a copy of the
interpreter state and dies: after `x <- 1` under a timeout, a following
inline read of `x` yields R `NULL`, not 1. -/
theorem timeout_path_drops_first_effect :
    resultResField (run inst0 cmdReadX none cfg0 Fate.alive
      (run inst0 cmdAssignX (some 5) cfg0
        (Fate.exited (worker cmdAssignX inst0.environment ps0.rstate cfg0).deposits) ps0).1).2
      = some RValue.RNull ∧
    some RValue.RNull ≠ some (RValue.RInt 1) :=
  ⟨by decide, by decide⟩

/-- C7 (amended): in the inline path (no timeout), two sequential commands
against the same supervisor share the interpreter's global environment: the
second command is evaluated against exactly the environment the first one
produced, so it observes the first command's side effects. -/
theorem inline_env_threading (inst : RREPLInst) (c1 c2 : Cmd) (cfg1 cfg2 : WConfig)
    (f1 f2 : Fate) (s : ProcState)
    (h1 : cfg1.tempFail = false) (h2 : cfg2.tempFail = false)
    (hne2 : cfg2.outName ≠ cfg2.errName)
    (hp1 : c1.parses = true) (hp2 : c2.parses = true)
    (hsk : s.rstate.outSinks = [])
    (he2 : (c2.run (c1.run s.rstate.globalEnv).newEnv).rError = none) :
    resultResField (run inst c2 none cfg2 f2 (run inst c1 none cfg1 f1 s).1).2 =
      some (c2.run (c1.run s.rstate.globalEnv).newEnv).value := by
  have hs1 := run_none_fst inst c1 cfg1 f1 s
  rw [warn_once_rstate] at hs1
  have hz := worker_state_env c1 inst.environment s.rstate cfg1 h1 hp1 hsk
  have hge : (warn_once (run inst c1 none cfg1 f1 s).1).rstate.globalEnv
      = (c1.run s.rstate.globalEnv).newEnv := by
    rw [warn_once_rstate, hs1]
    exact hz.1
  have hws := worker_success c2 inst.environment
      (warn_once (run inst c1 none cfg1 f1 s).1).rstate cfg2 h2 hne2 hp2
      (by rw [hge]; exact he2)
  have hret := run_none_ret inst c2 cfg2 f2 (run inst c1 none cfg1 f1 s).1 _ hws.2 hws.1
  rw [hret]
  simp only [resultResField]
  rw [hge]

/-- C7 witness: the amended theorem applied to inline `x <- 1` followed by
inline `x`: the second call's `res` field is 1. -/
theorem inline_env_threading_w :
    resultResField (run inst0 cmdReadX none cfg0 Fate.alive
      (run inst0 cmdAssignX none cfg0 Fate.alive ps0).1).2 = some (RValue.RInt 1) := by
  have h := inline_env_threading inst0 cmdAssignX cmdReadX cfg0 cfg0 Fate.alive Fate.alive ps0
    rfl rfl (by decide) rfl rfl rfl rfl
  exact h.trans (by decide)

/-- C8: the claim says a supervisor constructed without an environment binds
to the interpreter's ambient global environment. Instead, pydantic invokes
the declared `default_factory` — the object `robjects.globalenv` itself —
and calling an rpy2 environment handle raises `TypeError`, so construction
fails rather than binding the handle (independently, the field's
`Optional[Dict]` annotation names `Dict`, which is never imported). -/
theorem rrepl_default_environment_raises (ambient : REnv) :
    initEnvironmentField ambient none = Except.error notCallableMsg := rfl

/-- C9: across any nonempty sequence of `run` calls within one process,
whatever the commands, timeouts and instances involved, the advisory warning
is logged exactly once (by the first call). -/
theorem warn_emitted_once (calls : List CallSpec) (s : ProcState)
    (hw : s.warned = false) (hl : s.log = []) (hne : calls ≠ []) :
    (runSeq s calls).log = [warnMsg] := by
  cases calls with
  | nil => exact absurd rfl hne
  | cons c rest =>
    have h := run_fst_fields c.inst c.cmd c.timeout c.cfg c.fate s
    have hw1 : (warn_once s).log = [warnMsg] := by simp [warn_once, hw, hl]
    have hw2 : (warn_once s).warned = true := by simp [warn_once, hw]
    rw [runSeq, runSeq_log_stable rest _ (h.2.trans hw2), h.1, hw1]

/-- C9 witness: two sequential calls on a fresh process, one inline and one
with a timeout, produce exactly one warning. -/
theorem warn_emitted_once_w :
    (runSeq ps0
      [{ inst := inst0, cmd := cmdPrintHi, timeout := none, cfg := cfg0, fate := Fate.alive },
       { inst := inst0, cmd := cmdAssignX, timeout := some 1, cfg := cfg0, fate := Fate.alive }]).log
      = [warnMsg] :=
  warn_emitted_once _ ps0 rfl rfl (List.cons_ne_nil _ _)

/-- C10: the worker never reads its `environment` parameter: its entire
observable behaviour — final interpreter state, queue deposits, escaped
exception — is identical for any two environment arguments, because
evaluation happens against the interpreter's global environment. -/
theorem worker_independent_of_environment (c : Cmd) (e1 e2 : Option REnv)
    (st : RState) (cfg : WConfig) :
    worker c e1 st cfg = worker c e2 st cfg := rfl

end RConsole
